import Mathlib

/-!
Shallow embedding of the Buildbot client data module
(src/www/react-data-module/src/data/classes/Build.ts together with the
results helper module): the Build entity class (constructor, update,
toObject) and the result-code helpers (the intToResult table,
getBuildOrStepResults, results2class, results2text).

JavaScript looseness that the code observes is modelled explicitly: a
numeric field of an entity may be undefined (missing), null, or an
actual number; a boolean field may be undefined or an actual boolean.
-/

set_option autoImplicit false

namespace Buildbot

/-- A JavaScript number-typed field as the result classifier reads it:
possibly undefined (missing from the raw record), null, or an actual
number. Result codes and timestamps in this module are integers. -/
inductive JSNum where
  | undef
  | jnull
  | num (n : Int)
deriving DecidableEq, Repr

/-- A JavaScript boolean-typed field: possibly undefined (missing from
the raw record) or an actual boolean. -/
inductive JSBool where
  | undef
  | val (b : Bool)
deriving DecidableEq, Repr

/-- The JS read `x ?? 0` (and the numeric value of a field already known
to be a number): null and undefined coalesce to 0. -/
def JSNum.orZero : JSNum → Int
  | JSNum.num n => n
  | _ => 0

def SUCCESS : Int := 0
def WARNINGS : Int := 1
def FAILURE : Int := 2
def SKIPPED : Int := 3
def EXCEPTION : Int := 4
def RETRY : Int := 5
def CANCELLED : Int := 6
/-- Not returned by the API: client-only synthetic code. -/
def PENDING : Int := 1000
/-- Not returned by the API: client-only synthetic code. -/
def UNKNOWN : Int := 1001

/-- The intToResult lookup table: a JS object mapping each of the nine
result codes to its label; indexing with any other key yields undefined
(modelled as none). -/
def intToResult (n : Int) : Option String :=
  if n = SUCCESS then some "SUCCESS"
  else if n = WARNINGS then some "WARNINGS"
  else if n = FAILURE then some "FAILURE"
  else if n = SKIPPED then some "SKIPPED"
  else if n = EXCEPTION then some "EXCEPTION"
  else if n = RETRY then some "RETRY"
  else if n = CANCELLED then some "CANCELLED"
  else if n = PENDING then some "PENDING"
  else if n = UNKNOWN then some "UNKNOWN"
  else none

/-- The JS membership test `results in intToResult` on a possibly
null or undefined results field: only an actual number that is a key of
the table passes (the string keys "null" and "undefined" that null and
undefined would coerce to are not keys of the table). -/
def inIntToResult : JSNum → Bool
  | JSNum.num n => (intToResult n).isSome
  | _ => false

/-- A Build or Step entity as the result classifier reads it. The
classifier consults only results, complete and started_at; entityId and
state_string stand for the remaining fields that both Build and Step
carry and that the classifier never touches. The JS-value field types
make records with missing (undefined) fields representable. -/
structure ResultsEntity where
  results : JSNum
  complete : JSBool
  started_at : JSNum
  entityId : Int
  state_string : String
deriving DecidableEq, Repr

/-- getBuildOrStepResults (Build.ts results helper, lines 139-150):

- a null entity yields the fallback `unknownResults`;
- a non-null, recognized results code is returned verbatim (the guard
  ensures results is an actual number there, so `JSNum.orZero` reads
  exactly that number);
- otherwise, `complete === false` together with a positive coalesced
  `started_at ?? 0` yields PENDING;
- otherwise the fallback. -/
def getBuildOrStepResults (buildOrStep : Option ResultsEntity)
    (unknownResults : Int) : Int :=
  match buildOrStep with
  | none => unknownResults
  | some e =>
    if e.results ≠ JSNum.jnull ∧ inIntToResult e.results = true then
      JSNum.orZero e.results
    else if e.complete = JSBool.val false ∧ JSNum.orZero e.started_at > 0 then
      PENDING
    else
      unknownResults

/-- results2class (lines 152-159): classify with UNKNOWN as fallback,
render `results_` followed by the table label of the classification
(a missing table entry would render as the string "undefined" inside the
JS template literal), and append the pulse token, space-separated, when
the classification is PENDING and pulse is non-null. -/
def results2class (buildOrStep : ResultsEntity) (pulse : Option String) : String :=
  let results := getBuildOrStepResults (some buildOrStep) UNKNOWN
  let ret := "results_" ++ (intToResult results).getD "undefined"
  if results = PENDING ∧ pulse ≠ none then
    ret ++ " " ++ pulse.getD ""
  else
    ret

/-- results2text (lines 161-169): start from the literal "..." and
replace it by the table label only when the entity is non-null and its
results field is non-null and a key of the table. The TS parameter type
is non-nullable but the body guards against null, so the argument is
modelled as an Option. -/
def results2text (objWithResults : Option ResultsEntity) : String :=
  match objWithResults with
  | none => "..."
  | some o =>
    if o.results ≠ JSNum.jnull ∧ inIntToResult o.results = true then
      (intToResult (JSNum.orZero o.results)).getD "..."
    else
      "..."

/-- The open-ended property map of a Build. The property values are
opaque to all the code shown (never inspected, only stored and handed
back), so they are modelled as strings. -/
abbrev PropMap := List (String × String)

/-- A raw input record as consumed by Build.update, per the input
schema: every tracked field present and typed, except that the
properties key may be absent (none). -/
structure RawBuild where
  buildid : Int
  number : Int
  builderid : Int
  buildrequestid : Option Int
  workerid : Int
  masterid : Int
  started_at : Int
  complete_at : Option Int
  complete : Bool
  state_string : String
  results : Option Int
  properties : Option PropMap
deriving DecidableEq, Repr

/-- The tracked fields of a Build instance (also the shape of the plain
record produced by toObject, where every key is present). -/
structure BuildState where
  buildid : Int
  number : Int
  builderid : Int
  buildrequestid : Option Int
  workerid : Int
  masterid : Int
  started_at : Int
  complete_at : Option Int
  complete : Bool
  state_string : String
  results : Option Int
  properties : PropMap
deriving DecidableEq, Repr

/-- Build.update (Build.ts lines 34-47): assigns every tracked field
from the raw record, reading nothing from the previous instance state
(the parameter is unused exactly because the source assigns all twelve
fields); properties defaults to the empty map when absent. -/
def Build.update (_this : BuildState) (object : RawBuild) : BuildState :=
  { buildid := object.buildid
    number := object.number
    builderid := object.builderid
    buildrequestid := object.buildrequestid
    workerid := object.workerid
    masterid := object.masterid
    started_at := object.started_at
    complete_at := object.complete_at
    complete := object.complete
    state_string := object.state_string
    results := object.results
    properties := object.properties.getD [] }

/-- The Build constructor (lines 29-32) calls this.update(object); the
pre-update field values (undefined in TS) are never read because update
assigns every tracked field, so a dummy initial state is supplied. -/
def Build.construct (object : RawBuild) : BuildState :=
  Build.update ⟨0, 0, 0, none, 0, 0, 0, none, false, "", none, []⟩ object

/-- Build.toObject (lines 49-64): builds a plain record listing each
tracked field; the properties value is handed back as the very value the
instance holds (no copy). -/
def Build.toObject (b : BuildState) : BuildState :=
  { buildid := b.buildid
    number := b.number
    builderid := b.builderid
    buildrequestid := b.buildrequestid
    workerid := b.workerid
    masterid := b.masterid
    started_at := b.started_at
    complete_at := b.complete_at
    complete := b.complete
    state_string := b.state_string
    results := b.results
    properties := b.properties }

/-- JS deep-equality between a serialized plain record (all twelve keys
present) and a raw input record (properties key possibly absent): every
common field equal, and the properties key present in the raw record
with an equal value. A record holding a properties key is never
deep-equal to one lacking it. -/
def recordDeepEqualsRaw (rec : BuildState) (raw : RawBuild) : Prop :=
  rec.buildid = raw.buildid ∧ rec.number = raw.number ∧
  rec.builderid = raw.builderid ∧ rec.buildrequestid = raw.buildrequestid ∧
  rec.workerid = raw.workerid ∧ rec.masterid = raw.masterid ∧
  rec.started_at = raw.started_at ∧ rec.complete_at = raw.complete_at ∧
  rec.complete = raw.complete ∧ rec.state_string = raw.state_string ∧
  rec.results = raw.results ∧ some rec.properties = raw.properties

instance (rec : BuildState) (raw : RawBuild) :
    Decidable (recordDeepEqualsRaw rec raw) := by
  unfold recordDeepEqualsRaw; infer_instance

/-- The data-model invariant stated by the spec for Build: complete_at
is non-null only when complete is true, and results is non-null only
when complete is true. -/
def buildInvariant (b : BuildState) : Prop :=
  (b.complete_at ≠ none → b.complete = true) ∧
  (b.results ≠ none → b.complete = true)

instance (b : BuildState) : Decidable (buildInvariant b) := by
  unfold buildInvariant; infer_instance

/-- The known result codes per the spec data model: the closed server
enumeration SUCCESS..CANCELLED plus the two client-only synthetic
codes. -/
def knownCodes : List Int :=
  [SUCCESS, WARNINGS, FAILURE, SKIPPED, EXCEPTION, RETRY, CANCELLED,
   PENDING, UNKNOWN]

/-- Spec-side test for step 2 of the precedence rule: the results field
holds an actual number that is one of the known codes. -/
def isKnownCode : JSNum → Bool
  | JSNum.num n => decide (n ∈ knownCodes)
  | _ => false

/-- getResultsOf, written from the spec text (section 4.2): the
four-step precedence rule. 1. absent entity gives the fallback; 2. a
non-null results field holding a known code is returned verbatim;
3. complete strictly equal to false with started_at (absent treated
as 0) greater than 0 gives PENDING; 4. otherwise the fallback. -/
def getResultsOf (entity : Option ResultsEntity) (fallback : Int) : Int :=
  match entity with
  | none => fallback
  | some e =>
    if e.results ≠ JSNum.jnull ∧ isKnownCode e.results = true then
      JSNum.orZero e.results
    else if e.complete = JSBool.val false ∧ JSNum.orZero e.started_at > 0 then
      PENDING
    else
      fallback

/-- classNameFor, written from the spec text (section 4.2): derive
`results_` followed by the label of the classification (fallback
UNKNOWN); when the classification is PENDING and a non-null pulse token
is supplied, append it space-separated. -/
def classNameFor (entity : ResultsEntity) (pulseToken : Option String) : String :=
  let classification := getResultsOf (some entity) UNKNOWN
  let base := "results_" ++ (intToResult classification).getD "undefined"
  if classification = PENDING ∧ pulseToken ≠ none then
    base ++ " " ++ pulseToken.getD ""
  else
    base

lemma intToResult_isSome_iff (n : Int) :
    (intToResult n).isSome = true ↔ n ∈ knownCodes := by
  unfold intToResult knownCodes SUCCESS WARNINGS FAILURE SKIPPED EXCEPTION
    RETRY CANCELLED PENDING UNKNOWN
  split_ifs <;> simp_all

lemma inIntToResult_eq_isKnownCode (r : JSNum) :
    inIntToResult r = isKnownCode r := by
  cases r with
  | undef => rfl
  | jnull => rfl
  | num n =>
    show (intToResult n).isSome = decide (n ∈ knownCodes)
    by_cases h : n ∈ knownCodes
    · rw [(intToResult_isSome_iff n).mpr h, decide_eq_true h]
    · have h2 : (intToResult n).isSome = false := by
        rw [Bool.eq_false_iff]
        exact fun hh => h ((intToResult_isSome_iff n).mp hh)
      rw [h2, decide_eq_false h]

/-- The implementation classifier and the spec-side classifier agree on
every input. -/
lemma getResults_eq_spec (entity : Option ResultsEntity) (fallback : Int) :
    getBuildOrStepResults entity fallback = getResultsOf entity fallback := by
  cases entity with
  | none => rfl
  | some e =>
    simp only [getBuildOrStepResults, getResultsOf, inIntToResult_eq_isKnownCode]

/-- The classification produced with fallback UNKNOWN is always a key of
the intToResult table. -/
lemma classification_in_table (e : ResultsEntity) :
    (intToResult (getBuildOrStepResults (some e) UNKNOWN)).isSome = true := by
  simp only [getBuildOrStepResults]
  split_ifs with h1 h2
  · cases hr : e.results with
    | undef => rw [hr] at h1; exact absurd h1.2 (by simp [inIntToResult])
    | jnull => exact absurd hr h1.1
    | num n =>
      have := h1.2
      rw [hr] at this
      simpa [inIntToResult, JSNum.orZero] using this
  · decide
  · decide

example : getBuildOrStepResults none 1001 = 1001 := by decide
example :
    getBuildOrStepResults
      (some ⟨JSNum.jnull, JSBool.val false, JSNum.num 5, 0, ""⟩) UNKNOWN
      = PENDING := by decide
example :
    getBuildOrStepResults
      (some ⟨JSNum.jnull, JSBool.val false, JSNum.num 0, 0, ""⟩) UNKNOWN
      = UNKNOWN := by decide
example :
    getBuildOrStepResults
      (some ⟨JSNum.num 999, JSBool.val true, JSNum.num 1, 0, ""⟩) UNKNOWN
      = UNKNOWN := by decide
example :
    results2text (some ⟨JSNum.num 0, JSBool.val true, JSNum.num 1, 0, ""⟩)
      = "SUCCESS" := by decide
example :
    results2class ⟨JSNum.jnull, JSBool.val false, JSNum.num 5, 0, ""⟩
      (some "pulse") = "results_PENDING pulse" := by decide

/-- Claim C1: for every entity argument and every fallback value,
getBuildOrStepResults follows the four-step precedence rule of the spec
(getResultsOf) exactly: null entity gives the fallback; else a non-null
recognized results code is returned verbatim; else complete === false
with a coalesced started_at greater than 0 gives PENDING; else the
fallback. -/
theorem getBuildOrStepResults_follows_precedence
    (entity : Option ResultsEntity) (fallback : Int) :
    getBuildOrStepResults entity fallback = getResultsOf entity fallback :=
  getResults_eq_spec entity fallback

/-- Claim C3: Build.update is an idempotent full-replacement overwrite:
updating twice with the same record equals updating once; updating with
r1 then r2 equals updating with r2 alone; and after updating with r2
every tracked field holds exactly the value from r2, with properties
defaulting to the empty map when absent. -/
theorem update_idempotent_full_replacement
    (b : BuildState) (r r1 r2 : RawBuild) :
    Build.update (Build.update b r) r = Build.update b r
    ∧ Build.update (Build.update b r1) r2 = Build.update b r2
    ∧ (Build.update b r2).buildid = r2.buildid
    ∧ (Build.update b r2).number = r2.number
    ∧ (Build.update b r2).builderid = r2.builderid
    ∧ (Build.update b r2).buildrequestid = r2.buildrequestid
    ∧ (Build.update b r2).workerid = r2.workerid
    ∧ (Build.update b r2).masterid = r2.masterid
    ∧ (Build.update b r2).started_at = r2.started_at
    ∧ (Build.update b r2).complete_at = r2.complete_at
    ∧ (Build.update b r2).complete = r2.complete
    ∧ (Build.update b r2).state_string = r2.state_string
    ∧ (Build.update b r2).results = r2.results
    ∧ (Build.update b r2).properties = r2.properties.getD [] :=
  ⟨rfl, rfl, rfl, rfl, rfl, rfl, rfl, rfl, rfl, rfl, rfl, rfl, rfl, rfl⟩

/-- Claim C2, counterexample: the round trip is not deep-equal to the
raw input on every schema-conformant record, because a record whose
optional properties key is absent comes back with properties set to the
empty map, a key the raw record lacks. -/
theorem roundtrip_fails_when_properties_absent :
    ¬ recordDeepEqualsRaw
        (Build.toObject (Build.construct
          ⟨1, 2, 3, none, 4, 5, 6, some 7, true, "finished", some 0, none⟩))
        ⟨1, 2, 3, none, 4, 5, 6, some 7, true, "finished", some 0, none⟩ := by
  decide

/-- Claim C2, amended: for every raw record whose properties key is
present (possibly an empty map), constructing (or updating) a Build from
it and serializing with toObject yields a plain record deep-equal to the
raw input, with the properties value passed through unchanged (the very
mapping supplied, not a transformed copy). -/
theorem toObject_roundtrip_with_properties
    (b : BuildState) (raw : RawBuild) (p : PropMap)
    (hp : raw.properties = some p) :
    recordDeepEqualsRaw (Build.toObject (Build.update b raw)) raw
    ∧ (Build.toObject (Build.update b raw)).properties = p
    ∧ recordDeepEqualsRaw (Build.toObject (Build.construct raw)) raw := by
  refine ⟨?_, ?_, ?_⟩ <;>
    simp [recordDeepEqualsRaw, Build.toObject, Build.update, Build.construct, hp]

theorem toObject_roundtrip_with_properties_witness :
    recordDeepEqualsRaw
      (Build.toObject (Build.construct
        ⟨1, 2, 3, none, 4, 5, 6, some 7, true, "finished", some 0,
         some [("owner", "alice")]⟩))
      ⟨1, 2, 3, none, 4, 5, 6, some 7, true, "finished", some 0,
       some [("owner", "alice")]⟩ :=
  (toObject_roundtrip_with_properties
    ⟨0, 0, 0, none, 0, 0, 0, none, false, "", none, []⟩
    ⟨1, 2, 3, none, 4, 5, 6, some 7, true, "finished", some 0,
     some [("owner", "alice")]⟩
    [("owner", "alice")] rfl).2.2

/-- Claim C6, counterexample: update enforces nothing, so a raw record
that itself violates the stated data-model invariant (here complete is
false while complete_at and results are non-null) produces a Build that
violates it too; the invariant does not hold for every Build produced by
construct or update. -/
theorem invariant_not_enforced_by_update :
    ¬ buildInvariant (Build.construct
        ⟨1, 1, 1, none, 1, 1, 5, some 9, false, "weird", some 0, some []⟩) := by
  decide

/-- Claim C6, amended: construct and update copy the fields verbatim, so
every Build produced from a raw record that itself satisfies the
invariant (complete_at non-null only when complete, results non-null
only when complete) satisfies the invariant; and properties defaults to
the empty mapping when absent from the input record. -/
theorem update_preserves_invariant_and_defaults_properties
    (b : BuildState) (raw : RawBuild)
    (h1 : raw.complete_at ≠ none → raw.complete = true)
    (h2 : raw.results ≠ none → raw.complete = true) :
    buildInvariant (Build.update b raw)
    ∧ buildInvariant (Build.construct raw)
    ∧ (Build.update b raw).properties = raw.properties.getD []
    ∧ (raw.properties = none → (Build.update b raw).properties = []) :=
  ⟨⟨h1, h2⟩, ⟨h1, h2⟩, rfl, fun hp => by simp [Build.update, hp]⟩

theorem update_preserves_invariant_witness :
    buildInvariant (Build.construct
      ⟨1, 1, 1, none, 1, 1, 0, none, false, "starting", none, none⟩)
    ∧ (Build.construct
        ⟨1, 1, 1, none, 1, 1, 0, none, false, "starting", none, none⟩).properties
      = [] :=
  ⟨(update_preserves_invariant_and_defaults_properties
      ⟨0, 0, 0, none, 0, 0, 0, none, false, "", none, []⟩
      ⟨1, 1, 1, none, 1, 1, 0, none, false, "starting", none, none⟩
      (by decide) (by decide)).2.1,
   by decide⟩

/-- Claim C4: results2text returns the table label of the results code
when that code is non-null and recognized, and returns the literal "..."
in every other case: null entity, null results, undefined results, or an
unrecognized code. No fallback constant is consulted and no error is
raised (the function is total). -/
theorem results2text_label_or_ellipsis :
    results2text none = "..."
    ∧ (∀ (e : ResultsEntity) (n : Int) (lbl : String),
        e.results = JSNum.num n → intToResult n = some lbl →
        results2text (some e) = lbl)
    ∧ (∀ e : ResultsEntity, e.results = JSNum.jnull →
        results2text (some e) = "...")
    ∧ (∀ (e : ResultsEntity) (n : Int),
        e.results = JSNum.num n → intToResult n = none →
        results2text (some e) = "...")
    ∧ (∀ e : ResultsEntity, e.results = JSNum.undef →
        results2text (some e) = "...") := by
  refine ⟨rfl, ?_, ?_, ?_, ?_⟩
  · intro e n lbl hres hl
    simp [results2text, hres, inIntToResult, JSNum.orZero, hl]
  · intro e hres
    simp [results2text, hres]
  · intro e n hres hl
    simp [results2text, hres, inIntToResult, hl]
  · intro e hres
    simp [results2text, hres, inIntToResult]

theorem results2text_label_or_ellipsis_witness :
    results2text (some ⟨JSNum.num 0, JSBool.val true, JSNum.num 1, 7, "ok"⟩)
      = "SUCCESS"
    ∧ results2text (some ⟨JSNum.jnull, JSBool.val false, JSNum.num 1, 7, "run"⟩)
      = "..."
    ∧ results2text (some ⟨JSNum.num 999, JSBool.val true, JSNum.num 1, 7, "x"⟩)
      = "..." :=
  ⟨results2text_label_or_ellipsis.2.1 _ 0 "SUCCESS" rfl (by decide),
   results2text_label_or_ellipsis.2.2.1 _ rfl,
   results2text_label_or_ellipsis.2.2.2.1 _ 999 rfl (by decide)⟩

/-- Claim C5: results2class returns results_ followed by the label of
getBuildOrStepResults with fallback UNKNOWN, and appends the pulse
token, space-separated, exactly when that classification is PENDING and
the pulse argument is non-null; otherwise no token is appended. -/
theorem results2class_appends_pulse_iff_pending
    (e : ResultsEntity) (pulse : Option String) :
    (∀ s : String, getBuildOrStepResults (some e) UNKNOWN = PENDING →
      pulse = some s →
      results2class e pulse =
        "results_"
        ++ (intToResult (getBuildOrStepResults (some e) UNKNOWN)).getD "undefined"
        ++ " " ++ s)
    ∧ (getBuildOrStepResults (some e) UNKNOWN ≠ PENDING ∨ pulse = none →
      results2class e pulse =
        "results_"
        ++ (intToResult (getBuildOrStepResults (some e) UNKNOWN)).getD "undefined") := by
  constructor
  · intro s hp hs
    simp [results2class, hp, hs, String.append_assoc]
  · intro h
    have hc : ¬ (getBuildOrStepResults (some e) UNKNOWN = PENDING ∧ pulse ≠ none) := by
      rcases h with h | h
      · exact fun hcon => h hcon.1
      · exact fun hcon => hcon.2 h
    simp [results2class, hc]

theorem results2class_appends_pulse_iff_pending_witness :
    results2class ⟨JSNum.jnull, JSBool.val false, JSNum.num 5, 0, ""⟩
      (some "anim") = "results_PENDING anim"
    ∧ results2class ⟨JSNum.num 0, JSBool.val true, JSNum.num 5, 0, ""⟩
      (some "anim") = "results_SUCCESS" := by
  constructor
  · have h := (results2class_appends_pulse_iff_pending
      ⟨JSNum.jnull, JSBool.val false, JSNum.num 5, 0, ""⟩ (some "anim")).1
      "anim" (by decide) rfl
    rw [h]; decide
  · have h := (results2class_appends_pulse_iff_pending
      ⟨JSNum.num 0, JSBool.val true, JSNum.num 5, 0, ""⟩ (some "anim")).2
      (Or.inl (by decide))
    rw [h]; decide

/-- Claim C7: getBuildOrStepResults is a pure function of exactly the
three observed entity fields: two non-null entities agreeing on results,
complete and started_at yield the same value for every fallback,
whatever their other fields hold (being a pure Lean function of its
arguments, it reads no global state, caches nothing and mutates
nothing). -/
theorem getResults_depends_only_on_observed_fields
    (e1 e2 : ResultsEntity) (fallback : Int)
    (hres : e1.results = e2.results)
    (hcomp : e1.complete = e2.complete)
    (hstart : e1.started_at = e2.started_at) :
    getBuildOrStepResults (some e1) fallback
      = getBuildOrStepResults (some e2) fallback := by
  simp only [getBuildOrStepResults, hres, hcomp, hstart]

theorem getResults_depends_only_on_observed_fields_witness :
    getBuildOrStepResults
      (some ⟨JSNum.num 2, JSBool.val true, JSNum.num 9, 1, "a"⟩) 42
    = getBuildOrStepResults
      (some ⟨JSNum.num 2, JSBool.val true, JSNum.num 9, 99, "b"⟩) 42 :=
  getResults_depends_only_on_observed_fields _ _ 42 rfl rfl rfl

/-- Claim C8: the membership check uses the full nine-entry table, so an
entity whose results field holds a client-only synthetic code (PENDING
or UNKNOWN) has it returned verbatim at step 2, for every fallback and
whatever its complete flag holds. -/
theorem synthetic_codes_returned_verbatim
    (e : ResultsEntity) (fallback : Int) :
    (e.results = JSNum.num PENDING →
      getBuildOrStepResults (some e) fallback = PENDING)
    ∧ (e.results = JSNum.num UNKNOWN →
      getBuildOrStepResults (some e) fallback = UNKNOWN) := by
  constructor <;> intro h <;>
    simp [getBuildOrStepResults, h, inIntToResult, intToResult, JSNum.orZero,
      SUCCESS, WARNINGS, FAILURE, SKIPPED, EXCEPTION, RETRY, CANCELLED,
      PENDING, UNKNOWN]

theorem synthetic_codes_returned_verbatim_witness :
    getBuildOrStepResults
      (some ⟨JSNum.num 1000, JSBool.val true, JSNum.num 1, 0, ""⟩) 1001
      = PENDING
    ∧ getBuildOrStepResults
      (some ⟨JSNum.num 1001, JSBool.val true, JSNum.num 1, 0, ""⟩) 0
      = UNKNOWN :=
  ⟨(synthetic_codes_returned_verbatim _ 1001).1 rfl,
   (synthetic_codes_returned_verbatim _ 0).2 rfl⟩

/-- Claim C9: for every entity (including ones with undefined or
unrecognized fields) and every pulse argument, the classification that
results2class computes is a key of the nine-entry table, and the
returned string is results_ followed by that defined label (plus, at
most, the pulse suffix); an undefined label never appears. -/
theorem results2class_label_always_defined
    (e : ResultsEntity) (pulse : Option String) :
    ∃ (lbl rest : String),
      intToResult (getBuildOrStepResults (some e) UNKNOWN) = some lbl
      ∧ results2class e pulse = "results_" ++ lbl ++ rest := by
  obtain ⟨lbl, hl⟩ := Option.isSome_iff_exists.mp (classification_in_table e)
  by_cases hc : getBuildOrStepResults (some e) UNKNOWN = PENDING ∧ pulse ≠ none
  · have hl2 : intToResult PENDING = some lbl := by rw [← hc.1]; exact hl
    exact ⟨lbl, " " ++ pulse.getD "", hl, by
      simp [results2class, hc, hl2, String.append_assoc]⟩
  · exact ⟨lbl, "", hl, by simp [results2class, hc, hl]⟩

/-- Claim C10: the in-progress branch requires complete to be strictly
the boolean false: a non-null entity whose results is null, undefined or
unrecognized (the membership check fails) and whose complete field is
anything other than false is never classified PENDING; the fallback is
returned even when started_at is positive. -/
theorem incomplete_requires_strict_false
    (e : ResultsEntity) (fallback : Int)
    (hres : inIntToResult e.results = false)
    (hcomp : e.complete ≠ JSBool.val false) :
    getBuildOrStepResults (some e) fallback = fallback := by
  simp only [getBuildOrStepResults]
  split_ifs with h1 h2
  · rw [hres] at h1
    exact absurd h1.2 (by simp)
  · exact absurd h2.1 hcomp
  · rfl

theorem incomplete_requires_strict_false_witness :
    inIntToResult JSNum.jnull = false
    ∧ JSNum.orZero (JSNum.num 5) > 0
    ∧ getBuildOrStepResults
        (some ⟨JSNum.jnull, JSBool.undef, JSNum.num 5, 0, ""⟩) 1234 = 1234 :=
  ⟨rfl, by decide,
   incomplete_requires_strict_false _ 1234 rfl (by decide)⟩

end Buildbot
